import Mathlib

/-!
Verification development for the fb-ad-analyzer-api repository.

The repository is a browser extension plus a small HTTP API:
a background service worker (the capture Coordinator), an in-page
content script (the capture Overlay), a popup UI controller, an
analysis endpoint (`api/hello.js`) and a persistence endpoint
(the save-ad handler).

This file shallowly embeds the state, storage and message traffic of
those components as executable Lean definitions, translated directly
from the JavaScript source, and proves the specification claims about
them.  External effects (the desktop-capture picker, `fetch`, the
database) are modelled as explicit outcome parameters: each JavaScript
function that awaits such an effect becomes a Lean function taking the
effect's result as an argument and returning the new state together
with the list of messages it emitted.
-/

/-- An opaque analysis-endpoint JSON reply, carried around unparsed by the
background script (`result` in `handleScreenshotAnalysis`). -/
structure ApiResult where
  payload : String
deriving DecidableEq

/-- Runtime broadcast messages the background script sends to the popup
(`chrome.runtime.sendMessage` calls in `background.js`). -/
inductive BroadcastMsg where
  | screenshotCaptured (captureId : String)
  | analysisComplete (result : ApiResult)
  | analysisError (errorMsg : String)
deriving DecidableEq

/-- A broadcast message is a terminal analysis notification when it is
either `ANALYSIS_COMPLETE` or `ANALYSIS_ERROR`. -/
def BroadcastMsg.isAnalysisTerminal : BroadcastMsg → Bool
  | .analysisComplete _ => true
  | .analysisError _ => true
  | .screenshotCaptured _ => false

namespace Background

/-- The coordinator's mutable capture-session state: the module-level
`isCapturing` and `captureTabId` variables of `background.js`. -/
structure State where
  isCapturing : Bool
  captureTabId : Option Nat
deriving DecidableEq

/-- Outcome of the two capture strategies attempted by
`startScreenshotCapture`: the desktop picker succeeds with a stream id,
or it fails and the visible-tab raster capture succeeds, or both fail. -/
inductive CaptureAttempt where
  | desktopOk (streamId : String)
  | desktopFailTabOk (dataUrl : String)
  | bothFail (errorMsg : String)
deriving DecidableEq

/-- The object value returned by `startScreenshotCapture`. -/
structure StartResult where
  success : Bool
  method : Option String
  errorMsg : Option String
deriving DecidableEq

/-- Embedding of `startScreenshotCapture` (background.js lines 128-266).
If `isCapturing` is already set the call returns
`success:false, error:"Already capturing"` at once, leaving the state
untouched.  Otherwise the lock is taken and the desktop strategy is
tried, falling back to visible-tab capture; if both strategies fail the
outer catch clears the lock and reports the failure. -/
def startScreenshotCapture (s : State) (tabId : Nat) (attempt : CaptureAttempt) :
    State × StartResult :=
  if s.isCapturing then
    (s, { success := false, method := none, errorMsg := some "Already capturing" })
  else
    match attempt with
    | .desktopOk _ =>
        ({ isCapturing := true, captureTabId := some tabId },
         { success := true, method := some "desktop", errorMsg := none })
    | .desktopFailTabOk _ =>
        ({ isCapturing := true, captureTabId := some tabId },
         { success := true, method := some "tab", errorMsg := none })
    | .bothFail m =>
        ({ isCapturing := false, captureTabId := none },
         { success := false, method := none,
           errorMsg := some ("Screenshot capture failed: " ++ m) })

end Background

namespace ContentScript

/-- The content script's module-level capture state: `isCapturing`,
`isSelecting`, and whether the overlay DOM, media stream and keydown
listener currently exist. -/
structure OverlayState where
  isCapturing : Bool
  isSelecting : Bool
  hasOverlay : Bool
  hasMediaStream : Bool
  hasKeydownListener : Bool
deriving DecidableEq

/-- The content script's state before any capture starts. -/
def initialOverlayState : OverlayState :=
  { isCapturing := false, isSelecting := false, hasOverlay := false,
    hasMediaStream := false, hasKeydownListener := false }

/-- Messages the content script sends back to the background script.
`stopScreenCapture` sends none of them. -/
inductive OverlayOutMsg where
  | screenshotSelected
deriving DecidableEq

/-- Embedding of `startTabCapture`/`createTabCaptureOverlay`: ignores the
request when already capturing, otherwise sets `isCapturing`, builds the
overlay and registers the Escape keydown listener. -/
def startTabCapture (s : OverlayState) : OverlayState :=
  if s.isCapturing then s
  else { s with isCapturing := true, hasOverlay := true, hasKeydownListener := true }

/-- Embedding of `stopScreenCapture` (content script, popup.js doc lines
886-917): clears both flags, stops the media stream, removes the overlay
and the keydown listener.  It sends no message to the background script. -/
def stopScreenCapture (s : OverlayState) : OverlayState × List OverlayOutMsg :=
  if !s.isCapturing then (s, [])
  else
    ({ isCapturing := false, isSelecting := false, hasOverlay := false,
       hasMediaStream := false, hasKeydownListener := false }, [])

/-- Embedding of `handleKeyPress`: Escape during an active capture calls
`stopScreenCapture`; any other key is ignored. -/
def handleKeyPress (key : String) (s : OverlayState) : OverlayState × List OverlayOutMsg :=
  if key = "Escape" && s.isCapturing then stopScreenCapture s else (s, [])

end ContentScript

/-- C1: while a capture session is active (`isCapturing` is true), any
further `startScreenshotCapture` call synchronously returns
`success:false, error:"Already capturing"` and leaves the coordinator
state, in particular the active tab id, completely unchanged. -/
theorem start_capture_rejected_while_active
    (s : Background.State) (tabId : Nat) (attempt : Background.CaptureAttempt)
    (h : s.isCapturing = true) :
    Background.startScreenshotCapture s tabId attempt =
      (s, { success := false, method := none, errorMsg := some "Already capturing" }) := by
  unfold Background.startScreenshotCapture
  rw [h]
  simp

/-- Witness for C1: a concrete active session with tab 3 rejects a new
request for tab 9 and keeps its state. -/
theorem start_capture_rejected_while_active_witness :
    Background.startScreenshotCapture
        { isCapturing := true, captureTabId := some 3 } 9 (.desktopOk "s") =
      ({ isCapturing := true, captureTabId := some 3 },
       { success := false, method := none, errorMsg := some "Already capturing" }) :=
  start_capture_rejected_while_active
    { isCapturing := true, captureTabId := some 3 } 9 (.desktopOk "s") rfl

/-- C2: evaluation of the code at the failing input.  After a successful
tab-capture start the coordinator holds the lock; pressing Escape during
selection tears the overlay down completely but sends no message to the
coordinator, whose `isCapturing` flag therefore stays true, so the next
`startScreenshotCapture` call is rejected with "Already capturing"
— contradicting the claim that cancellation leaves the lock cleared. -/
theorem escape_cancel_leaves_lock_held :
    (Background.startScreenshotCapture
        { isCapturing := false, captureTabId := none } 7 (.desktopFailTabOk "img")).2.success
        = true ∧
    (ContentScript.startTabCapture ContentScript.initialOverlayState).hasOverlay = true ∧
    (ContentScript.handleKeyPress "Escape"
        (ContentScript.startTabCapture ContentScript.initialOverlayState)).1
        = ContentScript.initialOverlayState ∧
    (ContentScript.handleKeyPress "Escape"
        (ContentScript.startTabCapture ContentScript.initialOverlayState)).2 = [] ∧
    (Background.startScreenshotCapture
        { isCapturing := false, captureTabId := none } 7 (.desktopFailTabOk "img")).1.isCapturing
        = true ∧
    (Background.startScreenshotCapture
        (Background.startScreenshotCapture
            { isCapturing := false, captureTabId := none } 7 (.desktopFailTabOk "img")).1
        7 (.desktopFailTabOk "img")).2 =
      { success := false, method := none, errorMsg := some "Already capturing" } := by
  refine ⟨rfl, rfl, ?_, ?_, rfl, rfl⟩ <;> decide

namespace RespParser

/-- Whitespace predicate used for trimming parser segments. -/
def isWs (c : Char) : Bool :=
  c = ' ' || c = '\n' || c = '\t' || c = '\r'

/-- The opening brace character. -/
def lbraceChar : Char := Char.ofNat 123

/-- The closing brace character. -/
def rbraceChar : Char := Char.ofNat 125

/-- The double-quote character. -/
def quoteChar : Char := Char.ofNat 34

/-- The backslash character. -/
def backslashChar : Char := Char.ofNat 92

/-- Remove leading and trailing whitespace from a character list. -/
def trimChars (s : List Char) : List Char :=
  ((s.dropWhile isWs).reverse.dropWhile isWs).reverse

/-- Split a character list at the first occurrence of `delim`, returning
the segments before and after the delimiter, or `none` when the
delimiter does not occur. -/
def splitOnFirst (delim : List Char) : List Char → Option (List Char × List Char)
  | [] => if delim.isEmpty then some ([], []) else none
  | c :: rest =>
    if delim.isPrefixOf (c :: rest) then
      some ([], (c :: rest).drop delim.length)
    else
      match splitOnFirst delim rest with
      | some (pre, post) => some (c :: pre, post)
      | none => none

/-- Remove a fixed label from the front of a segment when present. -/
def dropLabel (label s : List Char) : List Char :=
  if label.isPrefixOf s then s.drop label.length else s

/-- Collect characters up to and including the first closing brace. -/
def upToClose : List Char → Option (List Char)
  | [] => none
  | c :: rest =>
    if c = rbraceChar then some [c]
    else (upToClose rest).map (c :: ·)

/-- Locate the first brace-delimited substring: from the first opening
brace to the nearest closing brace after it (a non-greedy match). -/
def firstBraceSpan : List Char → Option (List Char)
  | [] => none
  | c :: rest =>
    if c = lbraceChar then (upToClose rest).map (c :: ·)
    else firstBraceSpan rest

/-- Scan the body of a JSON string literal after its opening quote,
handling backslash escapes, returning the decoded content and the
remaining input after the closing quote. -/
def scanStringBody : List Char → Option (List Char × List Char)
  | [] => none
  | c :: rest =>
    if c = quoteChar then some ([], rest)
    else if c = backslashChar then
      match rest with
      | [] => none
      | e :: rest2 => (scanStringBody rest2).map (fun p => (e :: p.1, p.2))
    else (scanStringBody rest).map (fun p => (c :: p.1, p.2))

/-- Drop leading whitespace. -/
def skipWs (s : List Char) : List Char := s.dropWhile isWs

/-- Parse the members of a flat JSON object after its opening brace:
`"key" : "value"` pairs separated by commas, terminated by the closing
brace.  `fuel` bounds the recursion by the input length. -/
def parseMembers : Nat → List Char → Option (List (String × String) × List Char)
  | 0, _ => none
  | Nat.succ fuel, s =>
    match skipWs s with
    | [] => none
    | c :: rest =>
      if c = quoteChar then
        match scanStringBody rest with
        | none => none
        | some (key, r1) =>
          match skipWs r1 with
          | [] => none
          | c2 :: r3 =>
            if c2 = ':' then
              match skipWs r3 with
              | [] => none
              | c3 :: r5 =>
                if c3 = quoteChar then
                  match scanStringBody r5 with
                  | none => none
                  | some (val, r6) =>
                    match skipWs r6 with
                    | [] => none
                    | c4 :: r8 =>
                      if c4 = ',' then
                        match parseMembers fuel r8 with
                        | some (pairs, rest9) =>
                            some ((String.mk key, String.mk val) :: pairs, rest9)
                        | none => none
                      else if c4 = rbraceChar then
                        some ([(String.mk key, String.mk val)], r8)
                      else none
                else none
            else none
      else none

/-- Strict decoding of a flat JSON object with string keys and string
values, rejecting any malformed or trailing input. -/
def parseJsonFlatObject (s : List Char) : Option (List (String × String)) :=
  match skipWs s with
  | [] => none
  | c :: rest =>
    if c = lbraceChar then
      match skipWs rest with
      | [] => none
      | c2 :: r2 =>
        if c2 = rbraceChar then
          if skipWs r2 = [] then some [] else none
        else
          match parseMembers (rest.length + 1) rest with
          | some (pairs, rest2) =>
              if skipWs rest2 = [] then some pairs else none
          | none => none
    else none

/-- Lower-case a character list for case-insensitive matching. -/
def lowerChars (s : List Char) : List Char := s.map Char.toLower

/-- Whether `needle` occurs anywhere inside `hay`. -/
def containsSub (needle hay : List Char) : Bool :=
  (splitOnFirst needle hay).isSome

/-- Trim whitespace, a trailing comma, and surrounding quote characters
from a fallback-extracted field value. -/
def trimValue (v : List Char) : List Char :=
  let v1 := trimChars v
  let v2 := if v1.getLast? = some ',' then v1.dropLast else v1
  let v3 := trimChars v2
  let v4 := if v3.head? = some quoteChar then v3.drop 1 else v3
  if v4.getLast? = some quoteChar then v4.dropLast else v4

/-- Try to extract one field value from a `key : value`-shaped line,
matching any of the field's synonyms case-insensitively. -/
def extractFieldFromLine (syns : List String) (line : List Char) : Option String :=
  match splitOnFirst [':'] line with
  | none => none
  | some (l, r) =>
    if syns.any (fun syn => containsSub (lowerChars syn.toList) (lowerChars l)) then
      some (String.mk (trimValue r))
    else none

/-- Extract one field from the structured-section text, scanning its
lines for the first `key : value` match of any synonym. -/
def extractField (syns : List String) (lines : List (List Char)) : Option String :=
  lines.findSome? (extractFieldFromLine syns)

/-- The structured fields and their synonym sets used by the fallback
extractor.  The canonical field names are the ones the background
script reads from `structured_data`. -/
def fallbackFields : List (String × List String) :=
  [("advertiser_name", ["advertiser_name", "company", "brand"]),
   ("headline", ["headline"]),
   ("description", ["description"]),
   ("call_to_action", ["call_to_action", "cta"]),
   ("product_service", ["product_service", "product", "service"])]

/-- Per-field regular-expression-style fallback extraction over the
post-delimiter text; fields absent from the text are omitted. -/
def fallbackExtract (post : List Char) : List (String × String) :=
  let lines := post.splitOn '\n'
  fallbackFields.filterMap (fun f => (extractField f.2 lines).map (fun v => (f.1, v)))

/-- The fixed label that heads the human-readable section. -/
def analysisLabel : List Char := "**ANALYSIS**".toList

/-- The fixed literal delimiter that starts the structured section. -/
def structuredDelim : List Char := "**STRUCTURED_DATA**".toList

/-- The parser's output: the human-readable analysis and the structured
field mapping. -/
structure ParseResult where
  analysis : String
  structuredData : List (String × String)
deriving DecidableEq

/-- Modelled from the spec: the Response Parser implementation is not
present under `src/` (only its consumers are, e.g. the background
script's reads of `structured_data` fields).  Following spec section 4.3:
split `raw` on the fixed `**STRUCTURED_DATA**` delimiter (absent
delimiter degrades to `analysis = raw` with an empty map); strip the
`**ANALYSIS**` label from the pre-delimiter segment; non-greedily locate
the first brace-delimited substring of the post-delimiter segment and
strictly decode it; on malformed input fall back to per-field synonym
extraction; the parser never fails. -/
def parse (raw : String) : ParseResult :=
  match splitOnFirst structuredDelim raw.toList with
  | none => { analysis := raw, structuredData := [] }
  | some (pre, post) =>
    let analysisText := String.mk (trimChars (dropLabel analysisLabel (trimChars pre)))
    let structured :=
      match firstBraceSpan post with
      | none => fallbackExtract post
      | some span =>
        match parseJsonFlatObject span with
        | some pairs => pairs
        | none => fallbackExtract post
    { analysis := analysisText, structuredData := structured }

end RespParser

/-- C3: the round-trip example.  Parsing the delimited response
consisting of the analysis label, the line `foo`, the structured-data
delimiter and a one-field JSON object yields analysis `foo` and the
structured mapping with headline `Buy now`. -/
theorem parse_round_trip :
    RespParser.parse
        "**ANALYSIS**\nfoo\n**STRUCTURED_DATA**\n\x7b\"headline\":\"Buy now\"\x7d" =
      { analysis := "foo", structuredData := [("headline", "Buy now")] } := by
  decide

namespace ContentScript

/-- A page-relative selection rectangle (`selection` in the emitted
screenshot data). -/
structure Selection where
  left : ℚ
  top : ℚ
  width : ℚ
  height : ℚ
deriving DecidableEq

/-- A rectangle in source-raster pixel coordinates: the first four
arguments of the `drawImage` call in `cropTabCapture`. -/
structure CropRect where
  x : ℚ
  y : ℚ
  w : ℚ
  h : ℚ
deriving DecidableEq

/-- The screenshot record assembled by `cropTabCapture` and emitted to
the background script as `SCREENSHOT_SELECTED`: the source crop
rectangle, the canvas dimensions and the original selection. -/
structure EmittedCapture where
  srcRect : CropRect
  canvasW : ℚ
  canvasH : ℚ
  selection : Selection
deriving DecidableEq

/-- Embedding of `cropTabCapture` (popup.js doc lines 595-622): computes
`scaleX = img.width / window.innerWidth` and
`scaleY = img.height / window.innerHeight`, sizes the canvas to
`width * scaleX` by `height * scaleY`, and draws the source region
`(left * scaleX, top * scaleY, width * scaleX, height * scaleY)`. -/
def cropTabCapture (sel : Selection) (imgW imgH vpW vpH : ℚ) : EmittedCapture :=
  let scaleX := imgW / vpW
  let scaleY := imgH / vpH
  { srcRect := { x := sel.left * scaleX, y := sel.top * scaleY,
                 w := sel.width * scaleX, h := sel.height * scaleY },
    canvasW := sel.width * scaleX,
    canvasH := sel.height * scaleY,
    selection := sel }

/-- The selection rectangle computed at drag end from the pointer-down
and latest pointer-move coordinates. -/
def selectionRect (startX startY endX endY : ℚ) : Selection :=
  { left := min startX endX, top := min startY endY,
    width := |endX - startX|, height := |endY - startY| }

/-- Embedding of `endTabSelection` (popup.js doc lines 573-593): ignores
the event when no drag is active; aborts without emitting when the
selection's width or height is below the minimum size of 10 units;
otherwise crops and emits exactly one record. -/
def endTabSelection (isSelecting : Bool) (startX startY endX endY : ℚ)
    (imgW imgH vpW vpH : ℚ) : List EmittedCapture :=
  if !isSelecting then []
  else
    let sel := selectionRect startX startY endX endY
    if sel.width < 10 ∨ sel.height < 10 then []
    else [cropTabCapture sel imgW imgH vpW vpH]

/-- Follows the words of the spec: the implementer computes
`scale = sourceDimension / viewportDimension` independently per axis and
applies it to both the crop origin and the crop size. -/
def specScaledCropRect (sel : Selection) (srcW srcH vpW vpH : ℚ) : CropRect :=
  { x := sel.left * (srcW / vpW), y := sel.top * (srcH / vpH),
    w := sel.width * (srcW / vpW), h := sel.height * (srcH / vpH) }

end ContentScript

/-- C8: a completed drag whose selection is narrower or shorter than 10
units aborts without emitting a capture record, while a selection at
least 10 units in both dimensions emits exactly one record. -/
theorem selection_min_size_boundary
    (startX startY endX endY imgW imgH vpW vpH : ℚ) :
    (( |endX - startX| < 10 ∨ |endY - startY| < 10) →
        ContentScript.endTabSelection true startX startY endX endY imgW imgH vpW vpH = []) ∧
    ((10 ≤ |endX - startX| ∧ 10 ≤ |endY - startY|) →
        (ContentScript.endTabSelection true startX startY endX endY imgW imgH vpW vpH).length
          = 1) := by
  unfold ContentScript.endTabSelection ContentScript.selectionRect
  constructor
  · intro h
    simp only [Bool.not_true, Bool.false_eq_true, if_false, reduceIte]
    rw [if_pos h]
  · rintro ⟨h1, h2⟩
    simp only [Bool.not_true, Bool.false_eq_true, if_false, reduceIte]
    rw [if_neg]
    · rfl
    · push_neg
      exact ⟨h1, h2⟩

/-- Witness for C8: a 9 by 9 drag emits nothing and a 10 by 10 drag
emits exactly one record. -/
theorem selection_min_size_boundary_witness :
    ContentScript.endTabSelection true 0 0 9 9 800 600 800 600 = [] ∧
    (ContentScript.endTabSelection true 0 0 10 10 1600 1200 800 600).length = 1 := by
  constructor
  · exact (selection_min_size_boundary 0 0 9 9 800 600 800 600).1
      (Or.inl (by rw [show (9 : ℚ) - 0 = 9 by norm_num]; rw [abs_of_nonneg] <;> norm_num))
  · exact (selection_min_size_boundary 0 0 10 10 1600 1200 800 600).2
      ⟨by rw [show (10 : ℚ) - 0 = 10 by norm_num]; rw [abs_of_nonneg]; norm_num,
       by rw [show (10 : ℚ) - 0 = 10 by norm_num]; rw [abs_of_nonneg]; norm_num⟩

/-- C9: the crop rectangle applied to the source raster equals the
selection scaled per axis by `sourceDimension / viewportDimension`,
applied to both origin and size; in particular with viewport 800 by 600,
raster 1600 by 1200 and selection (100, 50, 200, 100) the raster is
cropped at (200, 100, 400, 200). -/
theorem crop_scaling_correct :
    (∀ (sel : ContentScript.Selection) (imgW imgH vpW vpH : ℚ),
        (ContentScript.cropTabCapture sel imgW imgH vpW vpH).srcRect =
          ContentScript.specScaledCropRect sel imgW imgH vpW vpH) ∧
    (ContentScript.cropTabCapture
        { left := 100, top := 50, width := 200, height := 100 } 1600 1200 800 600).srcRect =
      { x := 200, y := 100, w := 400, h := 200 } := by
  constructor
  · intro sel imgW imgH vpW vpH
    rfl
  · show ContentScript.CropRect.mk (100 * (1600 / 800)) (50 * (1200 / 600))
      (200 * (1600 / 800)) (100 * (1200 / 600)) = _
    norm_num

namespace BackgroundV2

/-- A persisted capture record (`capture_<timestamp>` entries written by
the vite-bundled background script's `handleScreenshotCapture`). -/
structure CaptureRecord where
  timestamp : Int
  tabId : Nat
  status : String
  analysis : Option ApiResult
deriving DecidableEq

/-- The `latestAnalysis` storage value written by
`handleScreenshotAnalysis`. -/
structure LatestAnalysis where
  timestamp : Int
  captureId : Option String
  result : Option ApiResult
  errorMsg : Option String
  status : String
deriving DecidableEq

/-- The `latestCapture` storage value written by
`handleScreenshotCapture`. -/
structure LatestCapture where
  captureId : String
  timestamp : Int
  status : String
deriving DecidableEq

/-- The slice of `chrome.storage.local` the coordinator reads and
writes. -/
structure Storage where
  captures : List (String × CaptureRecord)
  captureCount : Nat
  lastAnalysis : Option Int
  latestCapture : Option LatestCapture
  latestAnalysis : Option LatestAnalysis
deriving DecidableEq

/-- The result of the `testApiConnection` reachability probe. -/
structure ProbeResult where
  success : Bool
  errorMsg : Option String
deriving DecidableEq

/-- Outcome of the `fetch` of the analysis endpoint. -/
inductive FetchOutcome where
  | ok (result : ApiResult)
  | httpError (status : Nat) (statusText : String)
  | netError (errorMsg : String)
deriving DecidableEq

/-- The observable output of one `handleScreenshotAnalysis` run: the new
storage contents, the broadcast messages sent, whether the analysis
(model) request was actually issued, and whether a database save was
attempted. -/
structure AnalysisOutput where
  storage : Storage
  msgs : List BroadcastMsg
  analysisRequestSent : Bool
  dbSaveAttempted : Bool
deriving DecidableEq

/-- Attach an analysis result to the record stored under `captureId` and
move its status to `analyzed`, as the success path of
`handleScreenshotAnalysis` does for an existing record. -/
def updateCaptureRecord (caps : List (String × CaptureRecord)) (cid : String)
    (result : ApiResult) : List (String × CaptureRecord) :=
  caps.map (fun kv =>
    if kv.1 = cid then (kv.1, { kv.2 with analysis := some result, status := "analyzed" })
    else kv)

/-- The catch block of `handleScreenshotAnalysis`: stores an error-status
`latestAnalysis` and broadcasts `ANALYSIS_ERROR`. -/
def analysisErrorOutput (captureId : Option String) (now : Int) (st : Storage)
    (errorMsg : String) (requestSent : Bool) : AnalysisOutput :=
  let latest : LatestAnalysis :=
    { timestamp := now, captureId := captureId, result := none,
      errorMsg := some errorMsg, status := "error" }
  { storage := { st with latestAnalysis := some latest },
    msgs := [.analysisError errorMsg],
    analysisRequestSent := requestSent,
    dbSaveAttempted := false }

/-- Embedding of `handleScreenshotAnalysis` from the vite-bundled
background script (the coordinator variant that persists `latestAnalysis`
and the `captured`/`analyzed` status transition).  It first runs the
reachability probe and throws without issuing the analysis request when
the probe fails; on probe success it issues the request with a bounded
timeout, and on a well-formed reply updates the originating record,
stores the completed `latestAnalysis`, broadcasts `ANALYSIS_COMPLETE`
once, and then attempts the database save (whose failures are
swallowed).  Every failure is converted by the catch block into a single
`ANALYSIS_ERROR` broadcast. -/
def handleScreenshotAnalysis (captureId : Option String) (probe : ProbeResult)
    (fetchOutcome : FetchOutcome) (now : Int) (st : Storage) : AnalysisOutput :=
  if probe.success = false then
    analysisErrorOutput captureId now st
      ("API connection failed: " ++ probe.errorMsg.getD "Unknown error") false
  else
    match fetchOutcome with
    | .httpError status statusText =>
        analysisErrorOutput captureId now st
          ("API request failed: " ++ toString status ++ " " ++ statusText) true
    | .netError m => analysisErrorOutput captureId now st m true
    | .ok result =>
        let caps :=
          match captureId with
          | some cid => updateCaptureRecord st.captures cid result
          | none => st.captures
        { storage := { st with
            captures := caps,
            lastAnalysis := some now,
            latestAnalysis := some
              { timestamp := now, captureId := captureId, result := some result,
                errorMsg := none, status := "completed" } },
          msgs := [.analysisComplete result],
          analysisRequestSent := true,
          dbSaveAttempted := true }

end BackgroundV2

namespace PopupUI

/-- Embedding of the popup's `checkForRecentResults` (popup.js lines
115-130): on (re)initialization it reads `latestCapture` and
`latestAnalysis` and surfaces each one exactly when its timestamp lies
within the 30-second recency window before `now`. -/
def checkForRecentResults (latestCapture : Option BackgroundV2.LatestCapture)
    (latestAnalysis : Option BackgroundV2.LatestAnalysis) (now : Int) :
    Option BackgroundV2.LatestCapture × Option BackgroundV2.LatestAnalysis :=
  (match latestCapture with
   | some c => if now - 30000 < c.timestamp then some c else none
   | none => none,
   match latestAnalysis with
   | some a => if now - 30000 < a.timestamp then some a else none
   | none => none)

end PopupUI

/-- C4: a successful analysis of a capture record (probe succeeds, the
endpoint returns a well-formed reply) moves the persisted record's
status from `captured` to `analyzed`, stores the result as
`latestAnalysis` with status `completed` — which a popup reattaching
within the 30-second recency window reads back — and broadcasts exactly
one completion notification. -/
theorem analysis_success_updates_record
    (cid : String) (rec : BackgroundV2.CaptureRecord) (probe : BackgroundV2.ProbeResult)
    (result : ApiResult) (now : Int) (st : BackgroundV2.Storage)
    (hprobe : probe.success = true)
    (hrec : (cid, rec) ∈ st.captures)
    (_hstatus : rec.status = "captured") :
    let out := BackgroundV2.handleScreenshotAnalysis (some cid) probe (.ok result) now st
    (cid, { rec with status := "analyzed", analysis := some result }) ∈ out.storage.captures ∧
    out.storage.latestAnalysis = some
      { timestamp := now, captureId := some cid, result := some result,
        errorMsg := none, status := "completed" } ∧
    out.msgs = [.analysisComplete result] ∧
    ∀ now2 : Int, now2 - 30000 < now →
      (PopupUI.checkForRecentResults out.storage.latestCapture
          out.storage.latestAnalysis now2).2 = some
        { timestamp := now, captureId := some cid, result := some result,
          errorMsg := none, status := "completed" } := by
  intro out
  have hout : out = BackgroundV2.handleScreenshotAnalysis (some cid) probe (.ok result) now st :=
    rfl
  rw [BackgroundV2.handleScreenshotAnalysis, hprobe] at hout
  simp only [Bool.true_eq_false, if_false, reduceIte] at hout
  refine ⟨?_, ?_, ?_, ?_⟩
  · rw [hout]
    simp only [BackgroundV2.updateCaptureRecord, List.mem_map]
    exact ⟨(cid, rec), hrec, by simp⟩
  · rw [hout]
  · rw [hout]
  · intro now2 hnow2
    rw [hout]
    simp only [PopupUI.checkForRecentResults]
    rw [if_pos hnow2]

/-- Witness for C4: a concrete captured record is analyzed successfully
and all four conclusions hold at that input. -/
theorem analysis_success_updates_record_witness :
    let rec0 : BackgroundV2.CaptureRecord :=
      { timestamp := 1000, tabId := 4, status := "captured", analysis := none }
    let st0 : BackgroundV2.Storage :=
      { captures := [("capture_1000", rec0)], captureCount := 1,
        lastAnalysis := none, latestCapture := none, latestAnalysis := none }
    let out := BackgroundV2.handleScreenshotAnalysis (some "capture_1000")
        { success := true, errorMsg := none } (.ok { payload := "r" }) 2000 st0
    ("capture_1000",
      { rec0 with status := "analyzed", analysis := some { payload := "r" } })
        ∈ out.storage.captures ∧
    out.storage.latestAnalysis = some
      { timestamp := 2000, captureId := some "capture_1000",
        result := some { payload := "r" }, errorMsg := none, status := "completed" } ∧
    out.msgs = [.analysisComplete { payload := "r" }] ∧
    ∀ now2 : Int, now2 - 30000 < 2000 →
      (PopupUI.checkForRecentResults out.storage.latestCapture
          out.storage.latestAnalysis now2).2 = some
        { timestamp := 2000, captureId := some "capture_1000",
          result := some { payload := "r" }, errorMsg := none, status := "completed" } :=
  analysis_success_updates_record "capture_1000"
    { timestamp := 1000, tabId := 4, status := "captured", analysis := none }
    { success := true, errorMsg := none } { payload := "r" } 2000
    { captures := [("capture_1000",
        { timestamp := 1000, tabId := 4, status := "captured", analysis := none })],
      captureCount := 1, lastAnalysis := none, latestCapture := none, latestAnalysis := none }
    rfl (List.mem_singleton.mpr rfl) rfl

namespace Background

/-- An opaque captured-screenshot payload (image data plus page
metadata) as received from the content script. -/
structure ScreenshotData where
  payload : String
deriving DecidableEq

/-- A capture record as stored by `handleScreenshotCapture` in
`background.js`: the screenshot data plus timestamp and tab id, with the
analysis result attached in place once analysis completes. -/
structure CaptureRecordV1 where
  data : ScreenshotData
  timestamp : Int
  tabId : Nat
  analysis : Option ApiResult
deriving DecidableEq

/-- The slice of `chrome.storage.local` used by `background.js`. -/
structure StorageV1 where
  captures : List (String × CaptureRecordV1)
  captureCount : Nat
  lastAnalysis : Option Int
deriving DecidableEq

/-- The result of the `testApiConnection` reachability probe
(background.js lines 384-412). -/
structure ProbeResult where
  success : Bool
  errorMsg : Option String
deriving DecidableEq

/-- Outcome of the `fetch` of the analysis endpoint. -/
inductive FetchOutcome where
  | ok (result : ApiResult)
  | httpError (status : Nat) (statusText : String)
  | netError (errorMsg : String)
deriving DecidableEq

/-- Embedding of `handleScreenshotAnalysis` (background.js lines
316-382).  The probe runs first; when it fails the function throws
`API connection failed` before the analysis fetch, so the third output
component (whether the analysis request was issued) is `false`.  Every
failure path is caught and converted into a single `ANALYSIS_ERROR`
broadcast; the success path attaches the result to the stored record,
stamps `lastAnalysis` and broadcasts `ANALYSIS_COMPLETE`. -/
def handleScreenshotAnalysisV1 (captureId : Option String) (probe : ProbeResult)
    (fetchOutcome : FetchOutcome) (now : Int) (st : StorageV1) :
    StorageV1 × List BroadcastMsg × Bool :=
  if probe.success = false then
    (st, [.analysisError "API connection failed"], false)
  else
    match fetchOutcome with
    | .httpError status statusText =>
        (st, [.analysisError ("API request failed: " ++ toString status ++ " " ++ statusText)],
         true)
    | .netError m => (st, [.analysisError m], true)
    | .ok result =>
        let caps :=
          match captureId with
          | some cid =>
              st.captures.map (fun kv =>
                if kv.1 = cid then (kv.1, { kv.2 with analysis := some result }) else kv)
          | none => st.captures
        ({ st with captures := caps, lastAnalysis := some now },
         [.analysisComplete result], true)

/-- Embedding of `handleScreenshotCapture` (background.js lines
268-314): stores the record under `capture_<timestamp>`, increments the
capture counter, broadcasts `SCREENSHOT_CAPTURED`, and only then — when
auto-analysis is enabled — chains into `handleScreenshotAnalysisV1`,
finally releasing the capture lock.  The second output component is the
session's broadcast trace in emission order. -/
def handleScreenshotCapture (data : ScreenshotData) (tabId : Nat) (now : Int)
    (autoAnalyze : Bool) (probe : ProbeResult) (fetchOutcome : FetchOutcome)
    (st : StorageV1) : StorageV1 × List BroadcastMsg × State :=
  let captureId := "capture_" ++ toString now
  let st1 : StorageV1 :=
    { captures := st.captures ++ [(captureId, { data := data, timestamp := now,
                                                tabId := tabId, analysis := none })],
      captureCount := st.captureCount + 1,
      lastAnalysis := st.lastAnalysis }
  let analysisPart :=
    if autoAnalyze then
      let r := handleScreenshotAnalysisV1 (some captureId) probe fetchOutcome now st1
      (r.1, r.2.1)
    else (st1, [])
  (analysisPart.1, BroadcastMsg.screenshotCaptured captureId :: analysisPart.2,
   { isCapturing := false, captureTabId := none })

end Background

/-- C6: within one capture session the `SCREENSHOT_CAPTURED` broadcast
for the session's capture id occurs at a strictly earlier position of
the emission trace than every `ANALYSIS_COMPLETE` or `ANALYSIS_ERROR`
broadcast, because analysis is only chained after the capture record has
been stored and the captured notification sent. -/
theorem captured_precedes_analysis_msgs
    (data : Background.ScreenshotData) (tabId : Nat) (now : Int) (autoAnalyze : Bool)
    (probe : Background.ProbeResult) (f : Background.FetchOutcome)
    (st : Background.StorageV1) (j : Nat)
    (hj : j < (Background.handleScreenshotCapture data tabId now autoAnalyze
                probe f st).2.1.length)
    (hterm : ((Background.handleScreenshotCapture data tabId now autoAnalyze
                probe f st).2.1.get ⟨j, hj⟩).isAnalysisTerminal = true) :
    ∃ i, ∃ hi : i < (Background.handleScreenshotCapture data tabId now autoAnalyze
                      probe f st).2.1.length,
      i < j ∧
      (Background.handleScreenshotCapture data tabId now autoAnalyze
          probe f st).2.1.get ⟨i, hi⟩ =
        .screenshotCaptured ("capture_" ++ toString now) := by
  cases j with
  | zero => exact (Bool.false_ne_true hterm).elim
  | succ j =>
    exact ⟨0, Nat.lt_of_le_of_lt (Nat.zero_le _) hj, Nat.succ_pos j, rfl⟩

/-- Witness for C6: in a concrete auto-analyzed session the terminal
message sits at index 1 and the captured notification at index 0. -/
theorem captured_precedes_analysis_msgs_witness :
    ∃ i, ∃ hi : i < (Background.handleScreenshotCapture ⟨"img"⟩ 1 5 true
                      ⟨true, none⟩ (.ok ⟨"res"⟩) ⟨[], 0, none⟩).2.1.length,
      i < 1 ∧
      (Background.handleScreenshotCapture ⟨"img"⟩ 1 5 true
          ⟨true, none⟩ (.ok ⟨"res"⟩) ⟨[], 0, none⟩).2.1.get ⟨i, hi⟩ =
        .screenshotCaptured ("capture_" ++ toString (5 : Int)) :=
  captured_precedes_analysis_msgs ⟨"img"⟩ 1 5 true ⟨true, none⟩ (.ok ⟨"res"⟩)
    ⟨[], 0, none⟩ 1 (by decide) (by decide)

/-- C7: when the reachability probe fails, `handleScreenshotAnalysis`
short-circuits with the connection-failure error without issuing the
analysis request; and on every input the run emits exactly one broadcast
which is a terminal `ANALYSIS_COMPLETE` or `ANALYSIS_ERROR` — no failure
escapes the handler's boundary. -/
theorem analysis_probe_short_circuit_and_terminal
    (captureId : Option String) (probe : Background.ProbeResult)
    (f : Background.FetchOutcome) (now : Int) (st : Background.StorageV1) :
    (probe.success = false →
      Background.handleScreenshotAnalysisV1 captureId probe f now st =
        (st, [.analysisError "API connection failed"], false)) ∧
    (∃ m : BroadcastMsg,
      (Background.handleScreenshotAnalysisV1 captureId probe f now st).2.1 = [m] ∧
      m.isAnalysisTerminal = true) := by
  constructor
  · intro h
    unfold Background.handleScreenshotAnalysisV1
    rw [h]
    simp
  · unfold Background.handleScreenshotAnalysisV1
    by_cases h : probe.success = false
    · rw [if_pos h]
      exact ⟨_, rfl, rfl⟩
    · rw [if_neg h]
      cases f with
      | ok r => exact ⟨_, rfl, rfl⟩
      | httpError s t => exact ⟨_, rfl, rfl⟩
      | netError m => exact ⟨_, rfl, rfl⟩

/-- Witness for C7: a concrete failed probe yields the connection-failure
error with no analysis request issued. -/
theorem analysis_probe_short_circuit_and_terminal_witness :
    Background.handleScreenshotAnalysisV1 none ⟨false, none⟩ (.ok ⟨"r"⟩) 0 ⟨[], 0, none⟩ =
      (⟨[], 0, none⟩, [.analysisError "API connection failed"], false) :=
  (analysis_probe_short_circuit_and_terminal none ⟨false, none⟩
      (.ok ⟨"r"⟩) 0 ⟨[], 0, none⟩).1 rfl

namespace Background

/-- Whether a storage key names a capture record, as tested by
`key.startsWith('capture_')` in the cleanup listener. -/
def isCaptureKey (k : String) : Bool :=
  "capture_".toList.isPrefixOf k.toList

/-- The cleanup listener's comparator `(a, b) => b.timestamp - a.timestamp`:
entry `a` sorts before `b` exactly when `b`'s timestamp is at most `a`'s
(timestamp-descending order).  Entries are modelled as key/timestamp
pairs, the only record field the listener reads. -/
def tsDescBefore (a b : String × Int) : Bool :=
  decide (b.2 ≤ a.2)

/-- The cleanup listener's `captures` local after sorting: all entries
with a `capture_` key, ordered most-recent-first. -/
def sortedCaptures (storage : List (String × Int)) : List (String × Int) :=
  (storage.filter (fun kv => isCaptureKey kv.1)).mergeSort tsDescBefore

/-- The cleanup listener's `toDelete` local: the keys of every sorted
capture entry beyond the most recent 50. -/
def toDelete (storage : List (String × Int)) : List String :=
  ((sortedCaptures storage).drop 50).map Prod.fst

/-- Whether `chrome.storage.local.remove(toDelete)` keeps an entry. -/
def keepEntry (storage : List (String × Int)) (kv : String × Int) : Bool :=
  !((toDelete storage).contains kv.1)

/-- Embedding of the hourly cleanup alarm listener (background.js lines
466-486): filter the stored entries to the `capture_` keys, sort them by
timestamp descending, and when more than 50 remain remove every entry
whose key lies beyond the most recent 50. -/
def cleanup (storage : List (String × Int)) : List (String × Int) :=
  if (sortedCaptures storage).length > 50 then
    storage.filter (keepEntry storage)
  else storage

/-- The timestamp-descending comparator is transitive. -/
theorem tsDescBefore_trans (a b c : String × Int)
    (h1 : tsDescBefore a b = true) (h2 : tsDescBefore b c = true) :
    tsDescBefore a c = true := by
  simp only [tsDescBefore, decide_eq_true_eq] at h1 h2 ⊢
  omega

/-- The timestamp-descending comparator is total. -/
theorem tsDescBefore_total (a b : String × Int) :
    (tsDescBefore a b || tsDescBefore b a) = true := by
  simp only [tsDescBefore, Bool.or_eq_true, decide_eq_true_eq]
  omega

end Background

/-- C5: after a cleanup run over any stored entries with pairwise
distinct keys, at most 50 capture entries remain; the retained capture
entries are exactly (a permutation of) the 50 most recent by timestamp
— the first 50 of the timestamp-descending sort — and every evicted
capture entry has a timestamp at most that of every retained capture
entry. -/
theorem cleanup_retention (storage : List (String × Int))
    (hnodup : (storage.map Prod.fst).Nodup) :
    ((Background.cleanup storage).filter
        (fun kv => Background.isCaptureKey kv.1)).length ≤ 50 ∧
    ((Background.cleanup storage).filter
        (fun kv => Background.isCaptureKey kv.1)).Perm
      ((Background.sortedCaptures storage).take 50) ∧
    (∀ kv ∈ storage, Background.isCaptureKey kv.1 = true →
      kv ∉ Background.cleanup storage →
      ∀ kv2 ∈ Background.cleanup storage, Background.isCaptureKey kv2.1 = true →
        kv.2 ≤ kv2.2) := by
  have hperm : (Background.sortedCaptures storage).Perm
      (storage.filter (fun kv => Background.isCaptureKey kv.1)) :=
    List.mergeSort_perm _ _
  by_cases hlen : (Background.sortedCaptures storage).length > 50
  · -- more than 50 captures: the old ones are removed
    have hcl : Background.cleanup storage =
        storage.filter (Background.keepEntry storage) := by
      unfold Background.cleanup
      rw [if_pos hlen]
    -- keys of the sorted capture list are pairwise distinct
    have hnodcaps : ((storage.filter
        (fun kv => Background.isCaptureKey kv.1)).map Prod.fst).Nodup :=
      List.Nodup.sublist ((List.filter_sublist storage).map Prod.fst) hnodup
    have hnodS : ((Background.sortedCaptures storage).map Prod.fst).Nodup :=
      ((hperm.map Prod.fst).symm).nodup hnodcaps
    have hsplit : (Background.sortedCaptures storage).take 50 ++
        (Background.sortedCaptures storage).drop 50 =
        Background.sortedCaptures storage :=
      List.take_append_drop 50 _
    have hdisj : List.Disjoint
        (((Background.sortedCaptures storage).take 50).map Prod.fst)
        (((Background.sortedCaptures storage).drop 50).map Prod.fst) := by
      apply List.disjoint_of_nodup_append
      rw [← List.map_append, hsplit]
      exact hnodS
    -- entries among the newest 50 are kept
    have htake_keep : ∀ kv ∈ (Background.sortedCaptures storage).take 50,
        Background.keepEntry storage kv = true := by
      intro kv hkv
      unfold Background.keepEntry
      rw [Bool.not_eq_true']
      rw [Bool.eq_false_iff]
      intro hc
      exact hdisj (List.mem_map_of_mem Prod.fst hkv) (List.elem_iff.mp hc)
    -- entries beyond the newest 50 are removed
    have hdrop_del : ∀ kv ∈ (Background.sortedCaptures storage).drop 50,
        Background.keepEntry storage kv = false := by
      intro kv hkv
      unfold Background.keepEntry
      rw [Bool.not_eq_false']
      exact List.elem_iff.mpr (List.mem_map_of_mem Prod.fst hkv)
    -- the retained capture entries are the first 50 of the sort
    have hSfq : (Background.sortedCaptures storage).filter
        (Background.keepEntry storage) =
        (Background.sortedCaptures storage).take 50 := by
      conv_lhs => rw [← hsplit]
      rw [List.filter_append, List.filter_eq_self.mpr htake_keep,
        List.filter_eq_nil_iff.mpr
          (fun a ha hc => by rw [hdrop_del a ha] at hc; cases hc),
        List.append_nil]
    have hretained : (Background.cleanup storage).filter
        (fun kv => Background.isCaptureKey kv.1) =
        (storage.filter (fun kv => Background.isCaptureKey kv.1)).filter
          (Background.keepEntry storage) := by
      rw [hcl, List.filter_filter, List.filter_filter]
      exact List.filter_congr (fun a _ => Bool.and_comm _ _)
    have hpermret : ((Background.cleanup storage).filter
        (fun kv => Background.isCaptureKey kv.1)).Perm
        ((Background.sortedCaptures storage).take 50) := by
      rw [hretained, ← hSfq]
      exact (hperm.filter (Background.keepEntry storage)).symm
    refine ⟨?_, hpermret, ?_⟩
    · have hlen2 := hpermret.length_eq
      rw [List.length_take] at hlen2
      omega
    · intro kv hkvmem hkvcap hnotin kv2 hkv2mem hkv2cap
      -- kv was removed, hence its key is in toDelete, hence kv sits in the dropped tail
      have hq : Background.keepEntry storage kv = false := by
        rw [Bool.eq_false_iff]
        intro hq
        exact hnotin (hcl ▸ List.mem_filter.mpr ⟨hkvmem, hq⟩)
      have hkdel : kv.1 ∈ Background.toDelete storage := by
        unfold Background.keepEntry at hq
        rw [Bool.not_eq_false'] at hq
        exact List.elem_iff.mp hq
      obtain ⟨kv3, hkv3drop, hkv3fst⟩ := List.mem_map.mp hkdel
      have hkvS : kv ∈ Background.sortedCaptures storage :=
        hperm.mem_iff.mpr (List.mem_filter.mpr ⟨hkvmem, hkvcap⟩)
      have hkv3S : kv3 ∈ Background.sortedCaptures storage :=
        List.mem_of_mem_drop hkv3drop
      have hkveq : kv3 = kv :=
        List.inj_on_of_nodup_map hnodS hkv3S hkvS hkv3fst
      have hkvdrop : kv ∈ (Background.sortedCaptures storage).drop 50 :=
        hkveq ▸ hkv3drop
      -- kv2 was retained, hence sits among the first 50
      have hkv2take : kv2 ∈ (Background.sortedCaptures storage).take 50 :=
        hpermret.mem_iff.mp (List.mem_filter.mpr ⟨hkv2mem, hkv2cap⟩)
      -- sortedness across the take/drop boundary gives the bound
      have hsorted : (Background.sortedCaptures storage).Pairwise
          (fun a b => Background.tsDescBefore a b = true) := by
        unfold Background.sortedCaptures
        exact List.sorted_mergeSort Background.tsDescBefore_trans
          Background.tsDescBefore_total _
      have hpw : ((Background.sortedCaptures storage).take 50 ++
          (Background.sortedCaptures storage).drop 50).Pairwise
          (fun a b => Background.tsDescBefore a b = true) := by
        rw [hsplit]
        exact hsorted
      have hcross := (List.pairwise_append.mp hpw).2.2 kv2 hkv2take kv hkvdrop
      simpa [Background.tsDescBefore] using hcross
  · -- 50 or fewer captures: nothing is removed
    have hcl : Background.cleanup storage = storage := by
      unfold Background.cleanup
      rw [if_neg hlen]
    have htake : (Background.sortedCaptures storage).take 50 =
        Background.sortedCaptures storage :=
      List.take_of_length_le (by omega)
    refine ⟨?_, ?_, ?_⟩
    · rw [hcl]
      have := hperm.length_eq
      omega
    · rw [hcl, htake]
      exact hperm.symm
    · intro kv hkv _ hnot
      rw [hcl] at hnot
      exact absurd hkv hnot

/-- Witness for C5: on a concrete three-entry store with distinct keys
the retention bound, the retained-prefix permutation and the
evicted-before-retained ordering all hold. -/
theorem cleanup_retention_witness :
    (((Background.cleanup [("capture_1", (1 : Int)), ("capture_2", 2), ("captureCount", 0)]).filter
        (fun kv => Background.isCaptureKey kv.1)).length ≤ 50) ∧
    (((Background.cleanup [("capture_1", (1 : Int)), ("capture_2", 2), ("captureCount", 0)]).filter
        (fun kv => Background.isCaptureKey kv.1)).Perm
      ((Background.sortedCaptures
          [("capture_1", (1 : Int)), ("capture_2", 2), ("captureCount", 0)]).take 50)) ∧
    (∀ kv ∈ [("capture_1", (1 : Int)), ("capture_2", 2), ("captureCount", 0)],
      Background.isCaptureKey kv.1 = true →
      kv ∉ Background.cleanup [("capture_1", (1 : Int)), ("capture_2", 2), ("captureCount", 0)] →
      ∀ kv2 ∈ Background.cleanup [("capture_1", (1 : Int)), ("capture_2", 2), ("captureCount", 0)],
        Background.isCaptureKey kv2.1 = true → kv.2 ≤ kv2.2) :=
  cleanup_retention [("capture_1", (1 : Int)), ("capture_2", 2), ("captureCount", 0)]
    (by decide)

namespace SaveAd

/-- A request-body value for `analysis_data`: either a JSON string or a
non-string JSON value carried in stringified form (the handler applies
`JSON.stringify` to non-strings). -/
inductive BodyValue where
  | str (s : String)
  | jsonValue (stringified : String)
deriving DecidableEq

/-- JavaScript truthiness of an `analysis_data` value: the empty string
is falsy, every other string and every non-string object is truthy. -/
def BodyValue.truthy : BodyValue → Bool
  | .str s => !(s = "")
  | .jsonValue _ => true

/-- The `typeof analysis_data === 'string' ? analysis_data :
JSON.stringify(analysis_data)` conversion. -/
def BodyValue.asColumnText : BodyValue → String
  | .str s => s
  | .jsonValue j => j

/-- The fields the save-ad handler destructures from `req.body`;
`none` models an absent property. -/
structure ReqBody where
  screenshot_url : Option String
  analysis_data : Option BodyValue
  source_url : Option String
  platform : Option String
  user_id : Option String
deriving DecidableEq

/-- The row assembled as `adData` and passed to the `saved_ads` insert. -/
structure AdRow where
  user_id : String
  screenshot_url : Option String
  source_url : Option String
  platform : String
  analysis_data : String
  created_at : String
  updated_at : String
deriving DecidableEq

/-- Outcome of the Supabase insert. -/
inductive DbOutcome where
  | ok (id : Nat)
  | tableMissing (msg : String)
  | otherError (msg : String)
deriving DecidableEq

/-- The observable result of one handler run: the HTTP status, the
`error` field of the JSON response when present, and the row passed to
the database insert when the insert was attempted at all. -/
structure HandlerResult where
  status : Nat
  errorKind : Option String
  insertedRow : Option AdRow
deriving DecidableEq

/-- The `platform: platform || 'unknown'` default: absent or empty
platform becomes `unknown`. -/
def platformOrUnknown : Option String → String
  | none => "unknown"
  | some p => if p = "" then "unknown" else p

/-- Embedding of the save-ad handler (src/unnamed/part_001 lines 40-79
and surroundings): after the OPTIONS preflight, the POST-only check and
the configuration check, a request body without a truthy `analysis_data`
is rejected with status 400 and a `Validation error` payload before any
database access; otherwise the `adData` row is built — `user_id`
defaulting to `anonymous` via the destructuring default and `platform`
defaulting to `unknown` via `||` — and inserted, with the response
status reflecting the insert outcome. -/
def handler (method : String) (configured : Bool) (body : ReqBody)
    (nowIso : String) (db : DbOutcome) : HandlerResult :=
  if method = "OPTIONS" then
    { status := 200, errorKind := none, insertedRow := none }
  else if method ≠ "POST" then
    { status := 405, errorKind := some "Method not allowed", insertedRow := none }
  else if !configured then
    { status := 500, errorKind := some "Configuration error", insertedRow := none }
  else
    match body.analysis_data with
    | none =>
        { status := 400, errorKind := some "Validation error", insertedRow := none }
    | some ad =>
        if ad.truthy = false then
          { status := 400, errorKind := some "Validation error", insertedRow := none }
        else
          let row : AdRow :=
            { user_id := body.user_id.getD "anonymous",
              screenshot_url := body.screenshot_url,
              source_url := body.source_url,
              platform := platformOrUnknown body.platform,
              analysis_data := ad.asColumnText,
              created_at := nowIso,
              updated_at := nowIso }
          match db with
          | .ok _ =>
              { status := 201, errorKind := none, insertedRow := some row }
          | .tableMissing _ =>
              { status := 500, errorKind := some "Database schema error",
                insertedRow := some row }
          | .otherError _ =>
              { status := 500, errorKind := some "Database error",
                insertedRow := some row }

end SaveAd

/-- C10: on a configured deployment, a POST whose body lacks
`analysis_data` gets status 400 with the validation-error payload and no
insert is attempted; and when a (truthy) `analysis_data` is present with
`user_id` and `platform` absent, the inserted row carries `user_id`
`anonymous` and `platform` `unknown`. -/
theorem save_ad_validation_and_defaults
    (body : SaveAd.ReqBody) (nowIso : String) (db : SaveAd.DbOutcome) :
    (body.analysis_data = none →
      SaveAd.handler "POST" true body nowIso db =
        { status := 400, errorKind := some "Validation error", insertedRow := none }) ∧
    (∀ ad : SaveAd.BodyValue, body.analysis_data = some ad → ad.truthy = true →
      body.user_id = none → body.platform = none →
      ∃ row : SaveAd.AdRow,
        (SaveAd.handler "POST" true body nowIso db).insertedRow = some row ∧
        row.user_id = "anonymous" ∧ row.platform = "unknown") := by
  constructor
  · intro h
    unfold SaveAd.handler
    rw [h]
    simp
  · intro ad had htruthy huid hplat
    have hrow : (SaveAd.handler "POST" true body nowIso db).insertedRow =
        some { user_id := "anonymous",
               screenshot_url := body.screenshot_url,
               source_url := body.source_url,
               platform := "unknown",
               analysis_data := ad.asColumnText,
               created_at := nowIso, updated_at := nowIso } := by
      unfold SaveAd.handler
      rw [had, huid, hplat]
      cases db <;> simp [htruthy, SaveAd.platformOrUnknown]
    exact ⟨_, hrow, rfl, rfl⟩

/-- Witness for C10: a concrete body without `analysis_data` is rejected
with 400 and no insert, and a concrete body with only `analysis_data`
set is inserted with defaulted `user_id` and `platform`. -/
theorem save_ad_validation_and_defaults_witness :
    (SaveAd.handler "POST" true
        { screenshot_url := none, analysis_data := none, source_url := none,
          platform := none, user_id := none } "2024-01-01" (.ok 1) =
      { status := 400, errorKind := some "Validation error", insertedRow := none }) ∧
    (∃ row : SaveAd.AdRow,
      (SaveAd.handler "POST" true
          { screenshot_url := none, analysis_data := some (.str "analysis"),
            source_url := none, platform := none, user_id := none }
          "2024-01-01" (.ok 1)).insertedRow = some row ∧
      row.user_id = "anonymous" ∧ row.platform = "unknown") :=
  ⟨(save_ad_validation_and_defaults
      { screenshot_url := none, analysis_data := none, source_url := none,
        platform := none, user_id := none } "2024-01-01" (.ok 1)).1 rfl,
   (save_ad_validation_and_defaults
      { screenshot_url := none, analysis_data := some (.str "analysis"),
        source_url := none, platform := none, user_id := none }
      "2024-01-01" (.ok 1)).2 (.str "analysis") rfl rfl rfl rfl⟩
